import Mathlib

/-!
Verification of the Sharp 4D Video panel (`panels/sharp_video.py`).

The Python source is shallowly embedded below.  External collaborators
(the video processor, the filesystem glob, the frame loader `lf.io.load`,
the scene sink, the wall clock) are modelled as explicit environment
records; the panel's own control flow is translated statement by
statement.  Python floats are modelled as rationals, Python dicts as
association lists, and Python exceptions as explicit `Except` /
`Option` values threaded through the control flow.
-/

namespace SharpVideo

/-- Embedding of the `Stage` enum (source lines 25-29). -/
inductive Stage where
  | idle
  | processing
  | playing
  | error
deriving DecidableEq

/-- Embedding of the `ProcessResult` dataclass (source lines 31-36):
`success`, `ply_files` (default `[]`), `fps` (default `30.0`),
`error` (default `None`). -/
structure ProcessResult where
  success : Bool
  ply_files : List String := []
  fps : ℚ := 30
  error : Option String := none
deriving DecidableEq

/-- The mutable fields of a `ProcessingJob` that `_run` writes under the
job lock (source lines 42-44): `progress`, `status`, `result`. -/
structure JobState where
  progress : ℚ
  status : String
  result : Option ProcessResult
deriving DecidableEq

/-- A fresh job has `progress = 0.0`, `status = ""`, `result = None`
(source lines 42-44). -/
def initialJobState : JobState :=
  { progress := 0, status := "", result := none }

/-- Environment of one `ProcessingJob._run` execution: the behaviour of
the external collaborators and of the completion callback.
`progCalls` is the sequence of `(i, total, msg)` invocations the video
processor makes on `prog_cb` before it returns or raises;
`videoOutcome` is what `processor.process_video` then does (returns
`(files, fps)` or raises); `dirFiles` is what `Path.glob("*.ply")`
returns in directory mode; `cbRaises k` tells whether the `k`-th
invocation of the completion callback raises, and `cbErrMsg` is the
`str(e)` of that exception. -/
structure JobEnv where
  is_video : Bool
  progCalls : List (ℚ × ℚ × String)
  videoOutcome : Except String (List String × ℚ)
  dirFiles : List String
  cbRaises : Nat → Bool
  cbErrMsg : String

/-- One `prog_cb(i, total, msg)` call (source lines 57-61): sets
`status := msg`, and sets `progress := (i / total) * 100` when
`total > 0`. -/
def applyProg (st : JobState) (c : ℚ × ℚ × String) : JobState :=
  let st1 := { st with status := c.2.2 }
  if c.2.1 > 0 then { st1 with progress := c.1 / c.2.1 * 100 } else st1

/-- The successive values of `progress` observed after each `prog_cb`
call, starting from state `st`. -/
def progObserved (st : JobState) : List (ℚ × ℚ × String) → List ℚ
  | [] => []
  | c :: cs =>
    let st1 := applyProg st c
    st1.progress :: progObserved st1 cs

/-- Code points of a string, used as the sort key: Python `sorted` on
`str` compares code points lexicographically. -/
def strKey (s : String) : List Nat :=
  s.data.map Char.toNat

/-- Lexicographic `≤` on code-point lists. -/
def lexLe : List Nat → List Nat → Bool
  | [], _ => true
  | _ :: _, [] => false
  | a :: as, b :: bs =>
    if a < b then true
    else if b < a then false
    else lexLe as bs

/-- Lexicographic `≤` on strings, the order used by Python `sorted`. -/
def strLeb (a b : String) : Bool :=
  lexLe (strKey a) (strKey b)

/-- `strLeb` as a binary relation. -/
def strLe (a b : String) : Prop := strLeb a b = true

instance : DecidableRel strLe :=
  fun a b => inferInstanceAs (Decidable (strLeb a b = true))

/-- Embedding of Python `sorted` on lists of strings: a stable sort by
the lexicographic order. -/
def sortStrings (l : List String) : List String :=
  List.insertionSort strLe l

/-- The `try`-block body of `_run` up to the construction of the success
result (source lines 54-84): in video mode, the `prog_cb` calls run and
`process_video` returns `(files, fps)` or raises; in directory mode the
state is set to `status = "Scanning PLY files..."`, `progress = 50.0`,
the `*.ply` glob is sorted, `fps = 30.0`, and an empty glob raises
`FileNotFoundError("No .ply files found in directory")`.  Returns the
job state at the end of the body, the observed progress values, and
either the `(files, fps)` pair or the exception message. -/
def tryPhase (env : JobEnv) :
    JobState × List ℚ × Except String (List String × ℚ) :=
  if env.is_video then
    (env.progCalls.foldl applyProg initialJobState,
     progObserved initialJobState env.progCalls,
     env.videoOutcome)
  else
    let st1 : JobState :=
      { initialJobState with status := "Scanning PLY files...", progress := 50 }
    let files := sortStrings env.dirFiles
    (st1, [50],
     if files.isEmpty then Except.error "No .ply files found in directory"
     else Except.ok (files, 30))

/-- Did the `try`-body resolve without raising? -/
def exceptOk : Except String (List String × ℚ) → Bool
  | Except.ok _ => true
  | Except.error _ => false

/-- What one `ProcessingJob._run` execution does, as observed from
outside: the final job state, the sequence of completion-callback
invocations (each with the `ProcessResult` it was passed), the sequence
of values assigned to the `result` field, the successive values taken by
the `progress` field (starting at its initial `0.0`), and whether an
exception escaped `_run` (killing the worker thread). -/
structure RunTrace where
  final : JobState
  calls : List ProcessResult
  resultWrites : List ProcessResult
  progressTrace : List ℚ
  escaped : Bool
deriving DecidableEq

/-- The tail of `_run` after the `try`-body resolves (source lines
86-98).  On success: write the success result, set `progress = 100.0`,
`status = "Complete"`, and invoke the callback; if that invocation
raises, the `except` block overwrites `result` with a failure result and
invokes the callback a second time (a raise there escapes `_run`).  On a
`try`-body exception: the `except` block writes the failure result and
invokes the callback once (a raise there escapes `_run`). -/
def finishJob (env : JobEnv) (st1 : JobState) (obs : List ℚ) :
    Except String (List String × ℚ) → RunTrace
  | Except.ok (files, fps) =>
    let r1 : ProcessResult := { success := true, ply_files := files, fps := fps }
    let st2 : JobState :=
      { st1 with result := some r1, progress := 100, status := "Complete" }
    if env.cbRaises 0 then
      let r2 : ProcessResult := { success := false, error := some env.cbErrMsg }
      let st3 : JobState :=
        { st2 with result := some r2, status := "Error: " ++ env.cbErrMsg }
      { final := st3, calls := [r1, r2], resultWrites := [r1, r2],
        progressTrace := 0 :: obs ++ [100], escaped := env.cbRaises 1 }
    else
      { final := st2, calls := [r1], resultWrites := [r1],
        progressTrace := 0 :: obs ++ [100], escaped := false }
  | Except.error e =>
    let r : ProcessResult := { success := false, error := some e }
    let st2 : JobState :=
      { st1 with result := some r, status := "Error: " ++ e }
    { final := st2, calls := [r], resultWrites := [r],
      progressTrace := 0 :: obs, escaped := env.cbRaises 0 }

/-- Embedding of `ProcessingJob._run` (source lines 52-98). -/
def runJob (env : JobEnv) : RunTrace :=
  finishJob env (tryPhase env).1 (tryPhase env).2.1 (tryPhase env).2.2

/-- A decoded frame payload (the object returned by
`sharp_processor.load_gaussian_ply` / carried in
`lf.io.load(...).splat_data`).  Its internals are irrelevant to the
claims; an identifier suffices to tell payloads apart. -/
structure SplatData where
  id : Nat
deriving DecidableEq

/-- Embedding of the Python dict `self.frame_cache`: an association
list from frame path to decoded payload, in insertion order. -/
abbrev Cache := List (String × SplatData)

/-- `p in self.frame_cache` (dict key membership). -/
def cacheHas (c : Cache) (p : String) : Bool :=
  c.any (fun e => decide (e.1 = p))

/-- Embedding of the loop body of `SharpVideoPanel._preload_frames`
(source lines 213-222): `loader p = none` models
`load_gaussian_ply(p)` raising (the bare `except: pass` swallows it).
`count` is the local insertion counter; the loop breaks once
`count >= limit`, skips paths already cached, and appends new entries. -/
def preloadAux (loader : String → Option SplatData) (limit : Nat) :
    List String → Cache → Nat → Cache
  | [], c, _ => c
  | p :: ps, c, count =>
    if count ≥ limit then c
    else if cacheHas c p then preloadAux loader limit ps c count
    else
      match loader p with
      | some d => preloadAux loader limit ps (c ++ [(p, d)]) (count + 1)
      | none => preloadAux loader limit ps c count

/-- Embedding of `SharpVideoPanel._preload_frames` (source lines
213-222): the local counter starts at `count = 0`. -/
def preloadFrames (loader : String → Option SplatData) (limit : Nat)
    (files : List String) (c : Cache) : Cache :=
  preloadAux loader limit files c 0

/-- Observable calls `_update_scene_frame` makes on its collaborators:
the `lf.io.load` disk read, the log calls, and the scene-sink calls
(`add_splat`, `remove_node`, `rename_node`, `invalidate_cache`). -/
inductive Effect where
  | diskLoad (path : String)
  | logError (msg : String)
  | logInfo (msg : String)
  | addSplat (name : String) (d : SplatData)
  | removeNode (name : String)
  | renameNode (oldName newName : String)
  | invalidateCache
deriving DecidableEq

/-- Is this effect a call on the scene sink? -/
def isSinkEffect : Effect → Bool
  | Effect.addSplat _ _ => true
  | Effect.removeNode _ => true
  | Effect.renameNode _ _ => true
  | Effect.invalidateCache => true
  | _ => false

/-- Environment of one `_update_scene_frame` call: what `lf.io.load`
does on each path (`Except.error e` models a raise, `Except.ok none`
models a result whose `splat_data` is `None`), whether `lf.get_scene()`
returns a scene, and what `scene.get_node(name)` returns (the name of
the existing node, if any). -/
structure SceneEnv where
  ioLoad : String → Except String (Option SplatData)
  sceneAvailable : Bool
  getNode : String → Option String

/-- The fields of `SharpVideoPanel` (source lines 105-119) touched by
the embedded methods.  `input_path`/`input_mode_video` are carried for
completeness. -/
structure PanelState where
  input_path : String
  input_mode_video : Bool
  ply_files : List String
  playback_fps : ℚ
  current_frame_idx : Nat
  last_frame_time : ℚ
  is_playing : Bool
  frame_cache : Cache
  cache_limit : Nat
  stage : Stage
deriving DecidableEq

/-- Embedding of `SharpVideoPanel._update_scene_frame` (source lines
225-268), with the default `node_name = "Sharp4D"` its callers always
use.  Returns the updated panel state and the ordered collaborator
calls.  Note the body never consults `frame_cache`: it always performs
the `lf.io.load` disk read. -/
def updateSceneFrame (env : SceneEnv) (s : PanelState) (idx : Nat) :
    PanelState × List Effect :=
  if s.ply_files.isEmpty then (s, [])
  else
    let nodeName := "Sharp4D"
    let path := s.ply_files.getD idx ""
    match env.ioLoad path with
    | Except.error e =>
      (s, [Effect.diskLoad path,
           Effect.logError ("Failed to load splat frame " ++ path ++ ": " ++ e)])
    | Except.ok none =>
      (s, [Effect.diskLoad path,
           Effect.logError ("Failed to load splat frame " ++ path
             ++ ": No splat data returned")])
    | Except.ok (some splat) =>
      if env.sceneAvailable then
        let newName := nodeName ++ "__next"
        let removeCalls :=
          match env.getNode nodeName with
          | some old => [Effect.removeNode old]
          | none => []
        (s, [Effect.diskLoad path,
             Effect.logInfo ("Adding frame " ++ toString (idx + 1) ++ "/"
               ++ toString s.ply_files.length ++ ": " ++ path),
             Effect.addSplat newName splat]
            ++ removeCalls
            ++ [Effect.renameNode newName nodeName, Effect.invalidateCache])
      else
        ({ s with stage := Stage.error },
         [Effect.diskLoad path, Effect.logError "No active scene available."])

/-- Embedding of the play/pause button handler in `draw` (source lines
162-163): `self.is_playing = not self.is_playing`. -/
def togglePlayPause (s : PanelState) : PanelState :=
  { s with is_playing := !s.is_playing }

/-- Embedding of the background playback loop at the end of `draw`
(source lines 178-185): while playing with a non-empty sequence, if
`now - last_frame_time >= 1.0 / playback_fps` then advance the index
modulo the sequence length, push that frame, and stamp
`last_frame_time = now`. -/
def playbackTick (env : SceneEnv) (s : PanelState) (now : ℚ) :
    PanelState × List Effect :=
  if s.is_playing && !s.ply_files.isEmpty then
    let frameDuration := 1 / s.playback_fps
    if now - s.last_frame_time ≥ frameDuration then
      let s1 := { s with
        current_frame_idx := (s.current_frame_idx + 1) % s.ply_files.length }
      let pushed := updateSceneFrame env s1 s1.current_frame_idx
      ({ pushed.1 with last_frame_time := now }, pushed.2)
    else (s, [])
  else (s, [])

/-- Embedding of `SharpVideoPanel._on_complete` (source lines 197-211).
The returned `Bool` records whether the preload thread was started. -/
def onComplete (s : PanelState) (result : ProcessResult) :
    PanelState × Bool :=
  if result.success then
    let s1 := { s with ply_files := sortStrings result.ply_files }
    let s2 := { s1 with stage := Stage.idle }
    let s3 := { s2 with current_frame_idx := 0 }
    let s4 := { s3 with is_playing := true }
    let s5 := { s4 with stage := Stage.playing }
    (s5, true)
  else
    ({ s with stage := Stage.error }, false)

/-! Concrete inputs used by the counterexamples and witnesses. -/

/-- A directory-mode job on a one-file directory whose completion
callback raises on its first invocation. -/
def jobEnvCbRaises : JobEnv :=
  { is_video := false, progCalls := [], videoOutcome := Except.error "",
    dirFiles := ["a.ply"], cbRaises := fun k => k == 0, cbErrMsg := "boom" }

/-- A directory-mode job on a one-file directory whose completion
callback raises on its first invocation (input for the result-overwrite
counterexample). -/
def jobEnvOverwrite : JobEnv :=
  { is_video := false, progCalls := [], videoOutcome := Except.error "",
    dirFiles := ["x.ply"], cbRaises := fun k => k == 0, cbErrMsg := "thread start failed" }

/-- A directory-mode job on a one-file directory with a well-behaved
callback. -/
def jobEnvDirOne : JobEnv :=
  { is_video := false, progCalls := [], videoOutcome := Except.error "",
    dirFiles := ["a.ply"], cbRaises := fun _ => false, cbErrMsg := "" }

/-- A directory-mode job on a one-file directory with a well-behaved
callback (input for the single-write witness). -/
def jobEnvDirSingle : JobEnv :=
  { is_video := false, progCalls := [], videoOutcome := Except.error "",
    dirFiles := ["w.ply"], cbRaises := fun _ => false, cbErrMsg := "" }

/-- A directory-mode job on an unsorted two-file directory with a
well-behaved callback. -/
def jobEnvDirTwo : JobEnv :=
  { is_video := false, progCalls := [], videoOutcome := Except.error "",
    dirFiles := ["b.ply", "a.ply"], cbRaises := fun _ => false, cbErrMsg := "" }

/-- A directory-mode job on a one-file directory with a well-behaved
callback (input for the progress witness). -/
def jobEnvDirProg : JobEnv :=
  { is_video := false, progCalls := [], videoOutcome := Except.error "",
    dirFiles := ["p.ply"], cbRaises := fun _ => false, cbErrMsg := "" }

/-- A video-mode job whose processor reports 90% and then 10% before
succeeding. -/
def jobEnvProgDec : JobEnv :=
  { is_video := true, progCalls := [(9, 10, "step a"), (1, 10, "step b")],
    videoOutcome := Except.ok (["f.ply"], 30),
    dirFiles := [], cbRaises := fun _ => false, cbErrMsg := "" }

/-- A loader for which every path decodes. -/
def loaderAll : String → Option SplatData := fun _ => some ⟨0⟩

/-- A scene environment whose frame loads succeed with payload `⟨2⟩`
and whose scene holds a `"Sharp4D"` node. -/
def sceneEnvHit : SceneEnv :=
  { ioLoad := fun _ => Except.ok (some ⟨2⟩), sceneAvailable := true,
    getNode := fun n => some n }

/-- A panel showing frame 0 of `["a.ply"]` whose cache already holds a
payload (`⟨1⟩`, distinct from the on-disk `⟨2⟩`) for `"a.ply"`. -/
def panelCached : PanelState :=
  { input_path := "/videos/in.mp4", input_mode_video := true,
    ply_files := ["a.ply"], playback_fps := 30, current_frame_idx := 0,
    last_frame_time := 0, is_playing := true,
    frame_cache := [("a.ply", ⟨1⟩)], cache_limit := 150,
    stage := Stage.playing }

/-- A scene environment whose frame loads always raise. -/
def sceneEnvLoadFail : SceneEnv :=
  { ioLoad := fun _ => Except.error "disk unreadable",
    sceneAvailable := true, getNode := fun _ => none }

/-- A playing panel over `["a.ply"]` with an empty cache. -/
def panelPlayingOne : PanelState :=
  { input_path := "/plys", input_mode_video := false,
    ply_files := ["a.ply"], playback_fps := 30, current_frame_idx := 0,
    last_frame_time := 0, is_playing := true,
    frame_cache := [], cache_limit := 150, stage := Stage.playing }

/-- A playing panel over `["a.ply"]` at frame rate 1 with
`last_frame_time = 0` (input for the tick-advance witness). -/
def panelTick : PanelState :=
  { input_path := "/plys", input_mode_video := false,
    ply_files := ["a.ply"], playback_fps := 1, current_frame_idx := 0,
    last_frame_time := 0, is_playing := true,
    frame_cache := [], cache_limit := 150, stage := Stage.playing }

/-- An idle panel holding a previously loaded sequence (input for the
failure-completion witness). -/
def panelIdleSeq : PanelState :=
  { input_path := "/plys", input_mode_video := false,
    ply_files := ["old1.ply", "old2.ply"], playback_fps := 24,
    current_frame_idx := 1, last_frame_time := 5, is_playing := false,
    frame_cache := [("old1.ply", ⟨7⟩)], cache_limit := 150,
    stage := Stage.idle }

/-- A failed conversion result. -/
def resC10fail : ProcessResult :=
  { success := false, error := some "Processing failed: boom" }

/-! Helper lemmas. -/

lemma lexLe_total : ∀ as bs : List Nat, lexLe as bs = true ∨ lexLe bs as = true
  | [], bs => by cases bs <;> simp [lexLe]
  | _ :: _, [] => by simp [lexLe]
  | a :: as, b :: bs => by
    rcases Nat.lt_trichotomy a b with h | h | h
    · left
      simp [lexLe, h]
    · subst h
      rcases lexLe_total as bs with ih | ih
      · left
        simp [lexLe, Nat.lt_irrefl, ih]
      · right
        simp [lexLe, Nat.lt_irrefl, ih]
    · right
      simp [lexLe, h]

lemma lexLe_trans : ∀ as bs cs : List Nat,
    lexLe as bs = true → lexLe bs cs = true → lexLe as cs = true
  | [], _, _, _, _ => rfl
  | _ :: _, [], _, h1, _ => by simp [lexLe] at h1
  | _ :: _, _ :: _, [], _, h2 => by simp [lexLe] at h2
  | a :: as, b :: bs, c :: cs, h1, h2 => by
    simp only [lexLe] at h1 h2 ⊢
    rcases Nat.lt_trichotomy a b with hab | hab | hab
    · rcases Nat.lt_trichotomy b c with hbc | hbc | hbc
      · simp [Nat.lt_trans hab hbc]
      · subst hbc
        simp [hab]
      · rw [if_neg (Nat.lt_asymm hbc), if_pos hbc] at h2
        simp at h2
    · subst hab
      rw [if_neg (Nat.lt_irrefl a), if_neg (Nat.lt_irrefl a)] at h1
      rcases Nat.lt_trichotomy a c with hac | hac | hac
      · simp [hac]
      · subst hac
        rw [if_neg (Nat.lt_irrefl a), if_neg (Nat.lt_irrefl a)] at h2 ⊢
        exact lexLe_trans as bs cs h1 h2
      · rw [if_neg (Nat.lt_asymm hac), if_pos hac] at h2
        simp at h2
    · rw [if_neg (Nat.lt_asymm hab), if_pos hab] at h1
      simp at h1

lemma strLe_total (a b : String) : strLe a b ∨ strLe b a :=
  lexLe_total (strKey a) (strKey b)

lemma strLe_trans {a b c : String} (h1 : strLe a b) (h2 : strLe b c) : strLe a c :=
  lexLe_trans (strKey a) (strKey b) (strKey c) h1 h2

lemma sortStrings_sorted (l : List String) : (sortStrings l).Sorted strLe := by
  haveI : IsTotal String strLe := ⟨strLe_total⟩
  haveI : IsTrans String strLe := ⟨fun _ _ _ => strLe_trans⟩
  exact List.sorted_insertionSort strLe l

lemma sortStrings_perm (l : List String) : (sortStrings l).Perm l :=
  List.perm_insertionSort strLe l

lemma sortStrings_eq_nil_iff {l : List String} : sortStrings l = [] ↔ l = [] := by
  constructor
  · intro h
    have hlen := (sortStrings_perm l).length_eq
    rw [h] at hlen
    exact List.length_eq_zero.mp hlen.symm
  · intro h
    subst h
    rfl

lemma isEmpty_false_of_ne_nil {α : Type} {l : List α} (h : l ≠ []) :
    l.isEmpty = false := by
  cases l
  · exact absurd rfl h
  · rfl

/-- `_update_scene_frame` either leaves the panel state unchanged or
only moves the stage to `Error` (when the scene sink is unavailable). -/
lemma updateSceneFrame_state (env : SceneEnv) (s : PanelState) (idx : Nat) :
    (updateSceneFrame env s idx).1 = s ∨
    (updateSceneFrame env s idx).1 = { s with stage := Stage.error } := by
  simp only [updateSceneFrame]
  split
  · exact Or.inl rfl
  · split
    · exact Or.inl rfl
    · exact Or.inl rfl
    · split
      · exact Or.inl rfl
      · exact Or.inr rfl

lemma updateSceneFrame_current_frame_idx (env : SceneEnv) (s : PanelState) (idx : Nat) :
    (updateSceneFrame env s idx).1.current_frame_idx = s.current_frame_idx := by
  rcases updateSceneFrame_state env s idx with h | h <;> rw [h]

lemma preloadAux_length_le (loader : String → Option SplatData) (limit : Nat) :
    ∀ (ps : List String) (c : Cache) (count : Nat),
      (preloadAux loader limit ps c count).length ≤ c.length + (limit - count) := by
  intro ps
  induction ps with
  | nil =>
    intro c count
    simp [preloadAux]
  | cons p ps ih =>
    intro c count
    unfold preloadAux
    split
    · exact Nat.le_add_right _ _
    · next hcnt =>
      split
      · exact ih c count
      · cases hl : loader p with
        | some d =>
          simp only [hl]
          have h2 := ih (c ++ [(p, d)]) (count + 1)
          simp only [List.length_append, List.length_singleton] at h2
          omega
        | none =>
          simp only [hl]
          exact ih c count

/-! Claim theorems. -/

/-- Claim C9: toggling the play/pause control flips `is_playing` and
leaves `current_frame_idx` unchanged, in every panel state. -/
theorem togglePlayPause_flips_only_isPlaying (s : PanelState) :
    (togglePlayPause s).is_playing = !s.is_playing ∧
    (togglePlayPause s).current_frame_idx = s.current_frame_idx :=
  ⟨rfl, rfl⟩

/-- Claim C10: when a conversion completes with a failed result,
`_on_complete` sets the stage to `Error`, starts no preload thread, and
leaves every other panel field — `ply_files`, `current_frame_idx`,
`is_playing`, `playback_fps`, `frame_cache` included — unchanged. -/
theorem onComplete_failure_only_sets_error (s : PanelState) (r : ProcessResult)
    (h : r.success = false) :
    onComplete s r = ({ s with stage := Stage.error }, false) := by
  simp [onComplete, h]

/-- Claim C10, witness: the failure handler at a concrete panel state
and failed result. -/
theorem onComplete_failure_only_sets_error_witness :
    resC10fail.success = false ∧
    onComplete panelIdleSeq resC10fail
      = ({ panelIdleSeq with stage := Stage.error }, false) :=
  ⟨rfl, onComplete_failure_only_sets_error panelIdleSeq resC10fail rfl⟩

/-- Claim C2 (code bug): a playback push never consults the frame
cache.  At a state whose cache holds a payload `⟨1⟩` for the pushed
frame's path, `_update_scene_frame` still performs the `lf.io.load`
disk read and hands the scene sink the on-disk payload `⟨2⟩`, not the
cached one. -/
theorem updateSceneFrame_ignores_cache :
    cacheHas panelCached.frame_cache "a.ply" = true ∧
    Effect.diskLoad "a.ply" ∈ (updateSceneFrame sceneEnvHit panelCached 0).2 ∧
    Effect.addSplat "Sharp4D__next" ⟨2⟩ ∈ (updateSceneFrame sceneEnvHit panelCached 0).2 ∧
    ¬ Effect.addSplat "Sharp4D__next" ⟨1⟩ ∈ (updateSceneFrame sceneEnvHit panelCached 0).2 := by
  decide

/-- Claim C4, counterexample: the insertion cap is a local counter per
preload pass and the cache is never cleared, so two successive
conversion jobs each preloading fresh paths overfill the cache: with
capacity 2, a first job over two frames and a second job over three
fresh frames leave 4 resident entries. -/
theorem preload_capacity_exceeded_cex :
    (preloadFrames loaderAll 2 ["c.ply", "d.ply", "e.ply"]
        (preloadFrames loaderAll 2 ["a.ply", "b.ply"] [])).length = 4 ∧
    2 < 4 := by
  decide

/-- Claim C4 (amended): a single preload pass inserts at most
`cache_limit` new entries, so the cache grows by at most the capacity
per pass; the capacity bounds each pass's insertions, not the total
resident count across successive jobs. -/
theorem preloadFrames_length_le (loader : String → Option SplatData)
    (limit : Nat) (files : List String) (c : Cache) :
    (preloadFrames loader limit files c).length ≤ c.length + limit := by
  have h := preloadAux_length_le loader limit files c 0
  simpa using h

/-- Claim C1, counterexample: the success-path callback invocation sits
inside the `try` block, so a callback that raises on its first
invocation is caught by the `except` handler and invoked a second time
— first with the success result, then with a failure result. -/
theorem runJob_callback_called_twice_cex :
    (runJob jobEnvCbRaises).calls.length = 2 ∧
    (runJob jobEnvCbRaises).calls.map (fun r => r.success) = [true, false] := by
  decide

/-- Claim C1 (amended): the completion callback is invoked exactly
once, with the job's terminal result, provided the callback itself does
not raise on its first invocation; if the success-path invocation
raises, the `except` handler invokes it a second time with an
overwritten failure result. -/
theorem runJob_callback_called_once (env : JobEnv)
    (h : env.cbRaises 0 = false) :
    (runJob env).calls.length = 1 ∧
    (runJob env).calls.head? = (runJob env).final.result := by
  unfold runJob
  cases hp : (tryPhase env).2.2 with
  | error e => simp [finishJob, h, hp]
  | ok v => simp [finishJob, h, hp]

/-- Claim C1, witness: a directory-mode job with a well-behaved
callback invokes it exactly once with the terminal result. -/
theorem runJob_callback_called_once_witness :
    jobEnvDirOne.cbRaises 0 = false ∧
    ((runJob jobEnvDirOne).calls.length = 1 ∧
      (runJob jobEnvDirOne).calls.head? = (runJob jobEnvDirOne).final.result) :=
  ⟨rfl, runJob_callback_called_once jobEnvDirOne rfl⟩

/-- Claim C5, counterexample: when the success-path callback raises,
the `except` handler overwrites the already-written success result with
a different failure result — two writes, the second differing from the
first. -/
theorem runJob_result_overwritten_cex :
    (runJob jobEnvOverwrite).resultWrites.length = 2 ∧
    (runJob jobEnvOverwrite).resultWrites.map (fun r => r.success) = [true, false] := by
  decide

/-- Claim C5 (amended): the `result` field is written exactly once,
from `None` to the terminal value, provided the completion callback
does not raise on its first invocation; a raising success-path callback
makes the `except` handler overwrite `result` with a failure value. -/
theorem runJob_result_written_once (env : JobEnv)
    (h : env.cbRaises 0 = false) :
    (runJob env).resultWrites.length = 1 ∧
    (runJob env).final.result = (runJob env).resultWrites.head? := by
  unfold runJob
  cases hp : (tryPhase env).2.2 with
  | error e => simp [finishJob, h, hp]
  | ok v => simp [finishJob, h, hp]

/-- Claim C5, witness: a directory-mode job with a well-behaved
callback writes `result` exactly once. -/
theorem runJob_result_written_once_witness :
    jobEnvDirSingle.cbRaises 0 = false ∧
    ((runJob jobEnvDirSingle).resultWrites.length = 1 ∧
      (runJob jobEnvDirSingle).final.result
        = (runJob jobEnvDirSingle).resultWrites.head?) :=
  ⟨rfl, runJob_result_written_once jobEnvDirSingle rfl⟩

/-- Claim C3, counterexample: when the frame loader raises during a
playback push, `_update_scene_frame` only logs and returns — the stage
stays `Playing` and does not transition to `Error`. -/
theorem updateSceneFrame_load_failure_stage_cex :
    (updateSceneFrame sceneEnvLoadFail panelPlayingOne 0).1.stage = Stage.playing ∧
    Stage.playing ≠ Stage.error ∧
    ((updateSceneFrame sceneEnvLoadFail panelPlayingOne 0).2.filter isSinkEffect) = [] := by
  decide

/-- Claim C3 (amended): when loading the frame payload fails (the
loader raises or returns no splat data), the push is aborted for that
tick with no scene-sink calls and the panel state — its stage included
— is left entirely unchanged; the `Error` transition occurs only when
the scene sink is unavailable. -/
theorem updateSceneFrame_load_failure_aborts (env : SceneEnv)
    (s : PanelState) (idx : Nat)
    (h : ∀ d : SplatData,
      env.ioLoad (s.ply_files.getD idx "") ≠ Except.ok (some d)) :
    (updateSceneFrame env s idx).1 = s ∧
    ((updateSceneFrame env s idx).2.filter isSinkEffect) = [] := by
  by_cases he0 : s.ply_files.isEmpty
  · constructor <;> simp [updateSceneFrame, he0]
  · have he : s.ply_files.isEmpty = false := by
      rwa [Bool.not_eq_true] at he0
    cases hl : env.ioLoad (s.ply_files.getD idx "") with
    | error e =>
      simp only [updateSceneFrame, he, Bool.false_eq_true, if_false, hl]
      exact ⟨trivial, rfl⟩
    | ok o =>
      cases o with
      | none =>
        simp only [updateSceneFrame, he, Bool.false_eq_true, if_false, hl]
        exact ⟨trivial, rfl⟩
      | some d => exact absurd hl (h d)

/-- Claim C3, witness: the aborted push at a concrete playing panel
whose loader raises. -/
theorem updateSceneFrame_load_failure_aborts_witness :
    (∀ d : SplatData,
      sceneEnvLoadFail.ioLoad (panelPlayingOne.ply_files.getD 0 "")
        ≠ Except.ok (some d)) ∧
    ((updateSceneFrame sceneEnvLoadFail panelPlayingOne 0).1 = panelPlayingOne ∧
      ((updateSceneFrame sceneEnvLoadFail panelPlayingOne 0).2.filter isSinkEffect) = []) :=
  ⟨fun d hd => by simp [sceneEnvLoadFail] at hd,
   updateSceneFrame_load_failure_aborts sceneEnvLoadFail panelPlayingOne 0
     (fun d hd => by simp [sceneEnvLoadFail] at hd)⟩

/-- Claim C7: a directory-mode job (with a well-behaved callback) whose
directory holds at least one `*.ply` file terminates with
`success = true`, `ply_files` the lexicographically sorted, non-empty
file list, and `fps = 30`; with zero matches it terminates with
`success = false`, an empty `ply_files` list, and the non-empty error
message `"No .ply files found in directory"`. -/
theorem runJob_directory_mode (env : JobEnv) (hv : env.is_video = false)
    (hcb : env.cbRaises 0 = false) :
    (env.dirFiles ≠ [] →
      (runJob env).final.result =
        some { success := true, ply_files := sortStrings env.dirFiles,
               fps := 30, error := none } ∧
      (sortStrings env.dirFiles).Sorted strLe ∧
      (sortStrings env.dirFiles).Perm env.dirFiles ∧
      sortStrings env.dirFiles ≠ []) ∧
    (env.dirFiles = [] →
      (runJob env).final.result =
        some { success := false, ply_files := [], fps := 30,
               error := some "No .ply files found in directory" } ∧
      "No .ply files found in directory" ≠ "") := by
  constructor
  · intro hne
    have hsne : sortStrings env.dirFiles ≠ [] := by
      intro hc
      exact hne (sortStrings_eq_nil_iff.mp hc)
    have hie : (sortStrings env.dirFiles).isEmpty = false :=
      isEmpty_false_of_ne_nil hsne
    refine ⟨?_, sortStrings_sorted _, sortStrings_perm _, hsne⟩
    simp [runJob, tryPhase, hv, hie, finishJob, hcb]
  · intro hnil
    have hie : (sortStrings env.dirFiles).isEmpty = true := by
      rw [hnil]
      rfl
    constructor
    · simp [runJob, tryPhase, hv, hie, finishJob, hcb]
    · intro hc
      simp at hc

/-- Claim C7, witness: a directory holding `["b.ply", "a.ply"]` yields
a successful result listing `["a.ply", "b.ply"]` at 30 fps. -/
theorem runJob_directory_mode_witness :
    jobEnvDirTwo.is_video = false ∧ jobEnvDirTwo.cbRaises 0 = false ∧
    jobEnvDirTwo.dirFiles ≠ [] ∧
    ((runJob jobEnvDirTwo).final.result =
        some { success := true, ply_files := sortStrings jobEnvDirTwo.dirFiles,
               fps := 30, error := none } ∧
      (sortStrings jobEnvDirTwo.dirFiles).Sorted strLe ∧
      (sortStrings jobEnvDirTwo.dirFiles).Perm jobEnvDirTwo.dirFiles ∧
      sortStrings jobEnvDirTwo.dirFiles ≠ []) ∧
    sortStrings jobEnvDirTwo.dirFiles = ["a.ply", "b.ply"] :=
  ⟨rfl, rfl, by decide,
   (runJob_directory_mode jobEnvDirTwo rfl rfl).1 (by decide),
   by decide⟩

/-- Claim C8, counterexample: `prog_cb` stores the reported fraction
directly, so a processor that reports 90% and then 10% makes
`progress` decrease mid-job: the observed values are
`0, 90, 10, 100`. -/
theorem runJob_progress_decreases_cex :
    (runJob jobEnvProgDec).progressTrace = [0, 90, 10, 100] ∧
    ¬ List.Chain' (· ≤ ·) (runJob jobEnvProgDec).progressTrace := by
  have h : (runJob jobEnvProgDec).progressTrace = [0, 90, 10, 100] := by
    simp [runJob, tryPhase, finishJob, jobEnvProgDec, progObserved, applyProg,
      initialJobState]
    norm_num
  refine ⟨h, ?_⟩
  rw [h]
  intro hc
  rw [List.chain'_cons, List.chain'_cons] at hc
  have h2 := hc.2.1
  norm_num at h2

/-- Claim C8 (amended): `progress` equals 100 at the terminal state of
every successful run, and the observed `progress` sequence is
non-decreasing provided the processor's reported percentages are
themselves non-decreasing, starting at or above 0 and ending at or
below 100 (directory mode's fixed `0, 50, 100` always is); `progress`
is set to whatever fraction the processor last reported, so decreasing
reports make it decrease. -/
theorem runJob_progress_monotone (env : JobEnv) :
    (exceptOk (tryPhase env).2.2 = true → (runJob env).final.progress = 100) ∧
    (List.Chain' (· ≤ ·) ((0 : ℚ) :: (tryPhase env).2.1 ++ [100]) →
      List.Chain' (· ≤ ·) (runJob env).progressTrace) := by
  unfold runJob
  cases hp : (tryPhase env).2.2 with
  | ok v =>
    obtain ⟨files, fps⟩ := v
    constructor
    · intro _
      by_cases hcb : env.cbRaises 0
      · simp [finishJob, hcb]
      · simp [finishJob, hcb]
    · intro hch
      by_cases hcb : env.cbRaises 0
      · simpa [finishJob, hcb] using hch
      · simpa [finishJob, hcb] using hch
  | error e =>
    constructor
    · intro hok
      simp [exceptOk] at hok
    · intro hch
      have h1 := (List.chain'_append.mp hch).1
      simpa [finishJob] using h1

/-- Claim C8, witness: a successful directory-mode run ends with
`progress = 100` and a non-decreasing observed progress sequence. -/
theorem runJob_progress_monotone_witness :
    exceptOk (tryPhase jobEnvDirProg).2.2 = true ∧
    List.Chain' (· ≤ ·) ((0 : ℚ) :: (tryPhase jobEnvDirProg).2.1 ++ [100]) ∧
    (runJob jobEnvDirProg).final.progress = 100 ∧
    List.Chain' (· ≤ ·) (runJob jobEnvDirProg).progressTrace := by
  have hok : exceptOk (tryPhase jobEnvDirProg).2.2 = true := by decide
  have hobs : (tryPhase jobEnvDirProg).2.1 = [50] := rfl
  have hch : List.Chain' (· ≤ ·) ((0 : ℚ) :: (tryPhase jobEnvDirProg).2.1 ++ [100]) := by
    rw [hobs]
    show List.Chain' (· ≤ ·) [(0 : ℚ), 50, 100]
    rw [List.chain'_cons, List.chain'_cons]
    exact ⟨by decide, by decide, List.chain'_singleton 100⟩
  exact ⟨hok, hch, (runJob_progress_monotone jobEnvDirProg).1 hok,
    (runJob_progress_monotone jobEnvDirProg).2 hch⟩

/-- Claim C6: on a tick while playing with a non-empty sequence of
length `N`, if `now - last_frame_time ≥ 1 / playback_fps` then the
index becomes `(current_frame_idx + 1) % N`, the push protocol runs for
that new frame, and `last_frame_time` is set to `now`; otherwise the
state is unchanged and no push occurs. -/
theorem playbackTick_advance_rule (env : SceneEnv) (s : PanelState) (now : ℚ)
    (hp : s.is_playing = true) (hne : s.ply_files ≠ []) :
    (now - s.last_frame_time ≥ 1 / s.playback_fps →
      (playbackTick env s now).1.current_frame_idx
          = (s.current_frame_idx + 1) % s.ply_files.length ∧
      (playbackTick env s now).1.last_frame_time = now ∧
      (playbackTick env s now).2 =
        (updateSceneFrame env
          { s with current_frame_idx :=
              (s.current_frame_idx + 1) % s.ply_files.length }
          ((s.current_frame_idx + 1) % s.ply_files.length)).2) ∧
    (¬ now - s.last_frame_time ≥ 1 / s.playback_fps →
      (playbackTick env s now).1 = s ∧ (playbackTick env s now).2 = []) := by
  have hie : s.ply_files.isEmpty = false := isEmpty_false_of_ne_nil hne
  have heq : playbackTick env s now =
      (if now - s.last_frame_time ≥ 1 / s.playback_fps then
        ({ (updateSceneFrame env
             { s with current_frame_idx :=
                 (s.current_frame_idx + 1) % s.ply_files.length }
             ((s.current_frame_idx + 1) % s.ply_files.length)).1 with
           last_frame_time := now },
         (updateSceneFrame env
           { s with current_frame_idx :=
               (s.current_frame_idx + 1) % s.ply_files.length }
           ((s.current_frame_idx + 1) % s.ply_files.length)).2)
      else (s, [])) := by
    simp [playbackTick, hp, hie]
  constructor
  · intro ht
    rw [heq, if_pos ht]
    exact ⟨updateSceneFrame_current_frame_idx env _ _, rfl, rfl⟩
  · intro ht
    rw [heq, if_neg ht]
    exact ⟨rfl, rfl⟩

/-- Claim C6, witness: a playing one-frame panel at rate 1 with
`last_frame_time = 0` ticked at `now = 1` advances and pushes. -/
theorem playbackTick_advance_rule_witness :
    panelTick.is_playing = true ∧ panelTick.ply_files ≠ [] ∧
    ((1 : ℚ) - panelTick.last_frame_time ≥ 1 / panelTick.playback_fps) ∧
    ((playbackTick sceneEnvHit panelTick 1).1.current_frame_idx
        = (panelTick.current_frame_idx + 1) % panelTick.ply_files.length ∧
      (playbackTick sceneEnvHit panelTick 1).1.last_frame_time = 1 ∧
      (playbackTick sceneEnvHit panelTick 1).2 =
        (updateSceneFrame sceneEnvHit
          { panelTick with current_frame_idx :=
              (panelTick.current_frame_idx + 1) % panelTick.ply_files.length }
          ((panelTick.current_frame_idx + 1) % panelTick.ply_files.length)).2) := by
  have hp : panelTick.is_playing = true := rfl
  have hne : panelTick.ply_files ≠ [] := by decide
  have ht : (1 : ℚ) - panelTick.last_frame_time ≥ 1 / panelTick.playback_fps := by
    show (1 : ℚ) - 0 ≥ 1 / 1
    simp
  exact ⟨hp, hne, ht,
    (playbackTick_advance_rule sceneEnvHit panelTick 1 hp hne).1 ht⟩

end SharpVideo
